import Mathlib

/-!
Verification of the scollector telemetry agent against its design
specification.

The development shallowly embeds the Go sources:
* `src/main.go` — startup sequencing, collector selection, the memory
  watchdog, the local print sink, `parseHost` and `list`;
* `src/unnamed/part_000` (package `collectors`) — the ICMP and vSphere
  collectors;
* `src/collectors/system_windows.go` — the Windows uptime collector.

Pure functions become Lean functions; goroutines and channels become
explicit traces (lists of readings or of delivered points); fallible calls
into the network and OS become `Except`/`Option`-valued oracle fields of an
environment record.  Machine integers are `Nat`/`Int` with explicit
reduction modulo `2 ^ 64` where Go overflow semantics matter; Go `float64`
values are modelled as exact rationals (no claim below depends on
rounding).
-/

/-! ## Point model

The `opentsdb.DataPoint` type and the `collectors.Add` construction helper
are declared outside the files under verification; they are modelled from
the specification (§3, §4.1). -/

/-- A metric value: Go collectors pass either integer kinds (`int`,
`int64`, `uint64`, `uint32`) or `float64`.  Floats are modelled as exact
rationals. -/
inductive MetricValue where
  | int (i : Int)
  | rat (q : ℚ)
  deriving DecidableEq

/-- Modelled from the spec (§3): one normalized observation — metric name,
numeric value, tagset (key/value pairs, keys unique), timestamp. -/
structure DataPoint where
  metric : String
  value : MetricValue
  tags : List (String × String)
  timestamp : Int
  deriving DecidableEq

/-- A tagset is valid when its keys are pairwise distinct (spec §3
invariant). -/
def uniqueKeys (l : List (String × String)) : Bool :=
  decide (l.map Prod.fst).Nodup

/-- Modelled from the spec (§4.1): the merge of a caller-supplied tagset
with the process-wide default tagset.  The spec leaves the override
direction open (§9); caller-wins is chosen, so every claim below about a
caller-supplied tag holds for any default tagset. -/
def mergeTags (caller dflt : List (String × String)) : List (String × String) :=
  caller ++ dflt.filter (fun kv => decide (kv.1 ∉ caller.map Prod.fst))

/-- Modelled from the spec (§4.1): the Point construction helper `Add`.
It merges the caller tagset with the process-wide default tagset `dflt`,
rejects (drops the point) a resulting tagset with duplicate keys, stamps
the point with the invocation's clock reading `now`, and appends it to the
caller's sample batch.  The metadata-staging side effect is a side channel
that never alters the batch and is omitted.  Each Go call stamps its own
current time; a single abstract reading per invocation is threaded here,
and no claim below depends on how the clock advances between calls. -/
def addPoint (md : List DataPoint) (metric : String) (value : MetricValue)
    (tags dflt : List (String × String)) (now : Int) : List DataPoint :=
  let t := mergeTags tags dflt
  if uniqueKeys t then md ++ [⟨metric, value, t, now⟩] else md

theorem uniqueKeys_mergeTags (c d : List (String × String))
    (hc : uniqueKeys c = true) (hd : uniqueKeys d = true) :
    uniqueKeys (mergeTags c d) = true := by
  have hc' : (c.map Prod.fst).Nodup := of_decide_eq_true hc
  have hd' : (d.map Prod.fst).Nodup := of_decide_eq_true hd
  apply decide_eq_true
  unfold mergeTags
  rw [List.map_append]
  refine List.Nodup.append hc' ?_ ?_
  · exact ((List.filter_sublist d).map Prod.fst).nodup hd'
  · intro a ha hb
    rcases List.mem_map.mp hb with ⟨kv, hkv, rfl⟩
    have := List.of_mem_filter hkv
    exact (of_decide_eq_true this) ha

theorem addPoint_eq_append (md : List DataPoint) (metric : String)
    (value : MetricValue) (tags dflt : List (String × String)) (now : Int)
    (h : uniqueKeys (mergeTags tags dflt) = true) :
    addPoint md metric value tags dflt now =
      md ++ [⟨metric, value, mergeTags tags dflt, now⟩] := by
  unfold addPoint
  simp [h]

/-! ## Resource watchdog (`src/main.go`, lines 192–201)

```go
go func() {
    const maxMem = 500 * 1024 * 1024 // 500MB
    var m runtime.MemStats
    for _ = range time.Tick(time.Minute) {
        runtime.ReadMemStats(&m)
        if m.Alloc > maxMem {
            panic("memory max reached")
        }
    }
}()
```

The goroutine is a loop over once-per-minute ticks; at each tick it reads
`m.Alloc` and panics exactly when the reading strictly exceeds `maxMem`.
The trace of readings is modelled as a list of `Nat`, one per tick. -/

/-- The hard memory ceiling from `src/main.go`: 500 MB. -/
def maxMem : Nat := 500 * 1024 * 1024

/-- One watchdog tick: given the `m.Alloc` reading, does the loop panic at
this tick? -/
def watchdogTick (alloc : Nat) : Bool :=
  decide (maxMem < alloc)

/-- The watchdog loop over a trace of per-minute `m.Alloc` readings:
the index of the tick at which the loop panics (terminating the process),
or `none` if it survives the whole trace. -/
def watchdogFirstPanicTick : List Nat → Option Nat
  | [] => none
  | a :: as =>
    if watchdogTick a then some 0
    else (watchdogFirstPanicTick as).map (· + 1)

/-- Claim C1: for every watchdog check tick, the process is terminated at
that tick exactly when the memory reading at that tick strictly exceeds
the hard ceiling and no earlier reading did (the process is still alive);
a reading at or below the ceiling never terminates the process at its
tick. -/
theorem watchdog_panics_at_first_exceeding_tick
    (allocs : List Nat) (i : Nat) (hi : i < allocs.length) :
    watchdogFirstPanicTick allocs = some i ↔
      (maxMem < allocs.get ⟨i, hi⟩ ∧ ∀ x ∈ allocs.take i, x ≤ maxMem) := by
  induction allocs generalizing i with
  | nil => simp at hi
  | cons a as ih =>
    cases i with
    | zero =>
      by_cases h : watchdogTick a
      · have ha : maxMem < a := of_decide_eq_true h
        simp [watchdogFirstPanicTick, h, ha]
      · have ha : ¬ maxMem < a := of_decide_eq_false (eq_false_of_ne_true h)
        simp [watchdogFirstPanicTick, h, ha]
    | succ i' =>
      have hi' : i' < as.length := Nat.lt_of_succ_lt_succ hi
      by_cases h : watchdogTick a
      · have ha : maxMem < a := of_decide_eq_true h
        simp only [watchdogFirstPanicTick, h, if_pos]
        constructor
        · intro hcontra; simp at hcontra
        · rintro ⟨-, hall⟩
          exact absurd (hall a (by simp [List.take])) (Nat.not_le_of_lt ha)
      · have ha : a ≤ maxMem :=
          Nat.le_of_not_lt (of_decide_eq_false (eq_false_of_ne_true h))
        simp only [watchdogFirstPanicTick, h, if_neg, Bool.false_eq_true,
          not_false_iff]
        rw [show (a :: as).get ⟨i' + 1, hi⟩ = as.get ⟨i', hi'⟩ from rfl]
        constructor
        · intro hmap
          rcases Option.map_eq_some'.mp hmap with ⟨k, hk, hk1⟩
          have hki : k = i' := by omega
          rw [hki] at hk
          rcases (ih i' hi').mp hk with ⟨h1, h2⟩
          refine ⟨h1, ?_⟩
          intro x hx
          simp only [List.take, List.mem_cons] at hx
          rcases hx with rfl | hx
          · exact ha
          · exact h2 x hx
        · rintro ⟨h1, h2⟩
          have h2' : ∀ x ∈ as.take i', x ≤ maxMem := by
            intro x hx
            exact h2 x (by simp [List.take, hx])
          rw [(ih i' hi').mpr ⟨h1, h2'⟩]
          rfl

/-- Witness for C1 at a concrete trace: the reading exactly at the ceiling
(tick 0) does not terminate the process; the first strictly-exceeding
reading (tick 1) does. -/
theorem watchdog_panics_at_first_exceeding_tick_witness :
    watchdogFirstPanicTick [524288000, 524288001] = some 1 :=
  (watchdog_panics_at_first_exceeding_tick [524288000, 524288001] 1
    (by decide)).mpr ⟨by decide, by decide⟩

/-! ## Startup sequencing (`src/main.go`, function `main`)

`main` (after flag parsing and collector registration, which only populate
the inputs below) proceeds, in source order:

1. `-version` flag: print and exit (line 106);
2. `c := collectors.Search(*flagFilter)` (line 158);
3. `for _, col := range c { col.Init() }` (lines 159–161) — the result of
   each `Init` call is discarded;
4. `u, err := parseHost()` (line 162);
5. `-l` flag: `list(c); return` (lines 163–165);
6. `err != nil`: `slog.Fatal` (lines 166–167);
7. metadata init unless disabled; failure is `slog.Fatal` (lines 169–173);
8. `cdp := collectors.Run(c)` (line 178) — the scheduler receives `c`;
9. network mode (`u != nil && !*flagPrint`): `collect.InitChan` (fatal on
   error) and the watchdog goroutine (lines 179–201); otherwise the print
   sink `printPut(cdp)` and no watchdog (lines 202–205).

`collect.Put("version", ...)` is guarded by `VersionDate > 0` and
`VersionDate` is the constant `0` in source control, so it is skipped;
`collect.BatchSize` assignment does not affect these claims.  Calls into
missing packages (`url.Parse`, `metadata.Init`, `collect.InitChan`) are
oracle fields of the environment. -/

/-- Substring test on character lists: does `pat` occur contiguously in
the list? -/
def listContainsSub (pat : List Char) : List Char → Bool
  | [] => decide (pat = [])
  | c :: rest => pat.isPrefixOf (c :: rest) || listContainsSub pat rest

/-- `strings.Contains(s, pat)`. -/
def strContainsSub (s pat : String) : Bool :=
  listContainsSub pat.data s.data

/-- A collector as `main` sees it through the `collectors.Collector`
contract: an identity name and the one-time init hook.  Modelled from the
spec (§4.2): the interface is declared outside the sources under
verification; the spec gives `name() -> string` and optional
`init() -> error`. -/
structure MCollector where
  name : String
  initErr : Option String
  deriving DecidableEq

/-- Modelled from the spec (§4.2): `collectors.Search` is declared outside
the sources under verification; the registry "supports a substring filter
over collector names to select a subset to run". -/
def search (cols : List MCollector) (filter : String) : List MCollector :=
  cols.filter (fun c => strContainsSub c.name filter)

/-- `list` from `src/main.go` (lines 235–239): one printed line per
selected collector, carrying its name. -/
def list (cs : List MCollector) : List String :=
  cs.map (·.name)

/-- `parseHost` from `src/main.go` (lines 241–249).  `url.Parse` is an
oracle: `some u` models a successfully parsed URL, `none` a parse
error. -/
def parseHost (host : String) (urlParse : String → Option String) :
    Except String String :=
  if host = "" then .error "empty host"
  else
    let h := if strContainsSub host "//" then host else "http://" ++ host
    match urlParse h with
    | some u => .ok u
    | none => .error "invalid URL"

/-- The inputs `main` consumes: flag values and oracles for the calls into
packages outside the verified sources. -/
structure MainEnv where
  versionFlag : Bool
  listFlag : Bool
  printFlag : Bool
  disableMetadata : Bool
  filter : String
  host : String
  colls : List MCollector
  urlParse : String → Option String
  metadataInitErr : Option String
  initChanErr : Option String

/-- How the `main` of `src/main.go` leaves the process.  The `running`
constructors carry the list handed to `collectors.Run` — per the spec
(§4.3) the scheduler invokes every collector it receives.
`runningNetwork` is the branch that starts the watchdog goroutine;
`runningPrint` is the local-sink branch, which starts no watchdog. -/
inductive MainOutcome where
  | versionExit
  | listExit (lines : List String)
  | fatalInvalidHost
  | fatalMetadataInit
  | fatalInitChan
  | runningNetwork (scheduled : List MCollector)
  | runningPrint (scheduled : List MCollector)
  deriving DecidableEq

/-- The startup control flow of `main` (`src/main.go`, lines 101–207).
The init loop of lines 159–161 invokes each selected collector's hook and
discards the result, so it contributes nothing to the outcome. -/
def mainModel (env : MainEnv) : MainOutcome :=
  if env.versionFlag then .versionExit
  else
    let c := search env.colls env.filter
    match parseHost env.host env.urlParse with
    | u =>
      if env.listFlag then .listExit (list c)
      else
        match u with
        | .error _ => .fatalInvalidHost
        | .ok _ =>
          if !env.disableMetadata && env.metadataInitErr.isSome then
            .fatalMetadataInit
          else if !env.printFlag then
            match env.initChanErr with
            | some _ => .fatalInitChan
            | none => .runningNetwork c
          else .runningPrint c

/-- The list handed to the scheduler (`collectors.Run`), when scheduling
is reached at all. -/
def scheduledOf : MainOutcome → Option (List MCollector)
  | .runningNetwork c => some c
  | .runningPrint c => some c
  | _ => none

/-- Whether the outcome includes the watchdog goroutine of
`src/main.go` lines 192–201. -/
def watchdogStarted : MainOutcome → Bool
  | .runningNetwork _ => true
  | _ => false

/-! ## Local print sink (`src/main.go`, lines 251–260)

```go
func printPut(c chan *opentsdb.DataPoint) {
    for dp := range c {
        if *flagJSON {
            b, _ := json.Marshal(dp)
            slog.Info(string(b))
        } else {
            slog.Info(dp.Telnet())
        }
    }
}
```

The channel is modelled as the list of points drained from the pipeline,
and the logger as the list of emitted output records. -/

/-- Textual form of a metric value. -/
def valueStr : MetricValue → String
  | .int i => toString i
  | .rat q => toString q

/-- Modelled from the spec (§6): `opentsdb.DataPoint.Telnet` is declared
outside the sources under verification; the spec renders a point as the
plaintext line `metric timestamp value tag1=val1 tag2=val2 ...`. -/
def dpTelnet (p : DataPoint) : String :=
  p.metric ++ " " ++ toString p.timestamp ++ " " ++ valueStr p.value
    ++ String.join (p.tags.map (fun kv => " " ++ kv.1 ++ "=" ++ kv.2))

/-- Modelled from the spec (§6): `json.Marshal` of a point is a JSON
object with fields `metric`, `timestamp`, `value` and `tags`. -/
def dpJSON (p : DataPoint) : String :=
  "\x7b\"metric\":\"" ++ p.metric ++ "\",\"timestamp\":"
    ++ toString p.timestamp ++ ",\"value\":" ++ valueStr p.value
    ++ ",\"tags\":\x7b"
    ++ String.intercalate ","
        (p.tags.map (fun kv => "\"" ++ kv.1 ++ "\":\"" ++ kv.2 ++ "\""))
    ++ "\x7d\x7d"

/-- `printPut` from `src/main.go`: the drain loop over the pipeline,
emitting one output record per received point, JSON when the `-j` flag is
set and the Telnet line otherwise. -/
def printPut (jsonFlag : Bool) : List DataPoint → List String
  | [] => []
  | dp :: rest =>
    (if jsonFlag then dpJSON dp else dpTelnet dp) :: printPut jsonFlag rest

/-- Claim C6: in print mode every point drained from the pipeline is
written to the local output, rendered as the plaintext Telnet line or,
with the JSON flag, as a JSON object of the same point — one output
record per point, in order, the point model unchanged. -/
theorem printPut_one_line_per_point (jsonFlag : Bool) (ps : List DataPoint) :
    printPut jsonFlag ps
        = ps.map (fun dp => if jsonFlag then dpJSON dp else dpTelnet dp)
      ∧ (printPut jsonFlag ps).length = ps.length := by
  have h : printPut jsonFlag ps
      = ps.map (fun dp => if jsonFlag then dpJSON dp else dpTelnet dp) := by
    induction ps with
    | nil => rfl
    | cons p rest ih => simp [printPut, ih]
  exact ⟨h, by rw [h]; simp⟩

/-! ## Claims C3, C4, C5, C7 about the startup sequencing -/

/-- A startup environment whose single selected collector has a failing
init hook, in print mode with metadata disabled. -/
def envInitFail : MainEnv :=
  { versionFlag := false, listFlag := false, printFlag := true
    disableMetadata := true, filter := "", host := "bosun"
    colls := [⟨"badcol", some "init failed"⟩]
    urlParse := fun _ => some "http://bosun"
    metadataInitErr := none, initChanErr := none }

/-- Claim C3 counterexample: a selected collector whose init hook returns
an error is NOT excluded from scheduling — `main` discards the result of
every `col.Init()` call (lines 159–161) and hands the unchanged selected
list to `collectors.Run` (line 178), so the failed collector is part of
the scheduler's input and, per the scheduler contract (§4.3, "run every
selected Collector"), is invoked. -/
theorem failed_init_collector_still_scheduled_cex :
    (MCollector.mk "badcol" (some "init failed")).initErr ≠ none
      ∧ scheduledOf (mainModel envInitFail)
          = some [MCollector.mk "badcol" (some "init failed")] := by
  exact ⟨by decide, by rfl⟩

/-- Claim C3 (amended): `main` invokes every selected collector's init
hook once before scheduling and ignores the result; an init failure
neither aborts the process nor removes the collector — whenever scheduling
starts, the scheduler's input is exactly the full filtered selection,
independent of any init errors. -/
theorem scheduler_input_is_full_selected_list (env : MainEnv)
    (l : List MCollector)
    (h : scheduledOf (mainModel env) = some l) :
    l = search env.colls env.filter := by
  unfold mainModel at h
  by_cases hv : env.versionFlag
  · simp [hv, scheduledOf] at h
  · simp only [hv, if_false, Bool.false_eq_true] at h
    by_cases hl : env.listFlag
    · simp [hl, scheduledOf] at h
    · simp only [hl, if_false, Bool.false_eq_true] at h
      cases hp : parseHost env.host env.urlParse with
      | error e => rw [hp] at h; simp [scheduledOf] at h
      | ok u =>
        rw [hp] at h
        by_cases hm : !env.disableMetadata && env.metadataInitErr.isSome
        · simp [hm, scheduledOf] at h
        · simp only [hm, if_false, Bool.false_eq_true] at h
          by_cases hpr : !env.printFlag
          · simp only [hpr, if_true] at h
            cases hic : env.initChanErr with
            | some e => rw [hic] at h; simp [scheduledOf] at h
            | none =>
              rw [hic] at h
              simpa [scheduledOf] using h.symm
          · simp only [hpr, if_false, Bool.false_eq_true] at h
            simpa [scheduledOf] using h.symm

/-- Witness for the amended C3: in `envInitFail` scheduling starts and its
input is the full selection, still containing the failed-init
collector. -/
theorem scheduler_input_is_full_selected_list_witness :
    [MCollector.mk "badcol" (some "init failed")]
      = search envInitFail.colls envInitFail.filter :=
  scheduler_input_is_full_selected_list envInitFail
    [MCollector.mk "badcol" (some "init failed")] rfl

/-- A print-mode (local-sink) startup environment. -/
def envPrintMode : MainEnv :=
  { versionFlag := false, listFlag := false, printFlag := true
    disableMetadata := true, filter := "", host := "bosun"
    colls := [], urlParse := fun _ => some "http://bosun"
    metadataInitErr := none, initChanErr := none }

/-- Claim C4 counterexample: in local-sink (print) mode the process runs
the print sink and the watchdog goroutine of lines 192–201 is never
started — the watchdog does not run in every operating mode. -/
theorem no_watchdog_in_print_mode_cex :
    mainModel envPrintMode = .runningPrint []
      ∧ watchdogStarted (mainModel envPrintMode) = false := by
  exact ⟨rfl, rfl⟩

/-- Claim C4 (amended): the watchdog goroutine is started exactly when the
process reaches the running phase in network-delivery mode (print flag
off); in local-sink mode, and in every terminating outcome, no watchdog
runs and the process cannot be terminated by it. -/
theorem watchdog_started_iff_network_mode (env : MainEnv) :
    watchdogStarted (mainModel env)
      = (!env.printFlag && (scheduledOf (mainModel env)).isSome) := by
  unfold mainModel
  by_cases hv : env.versionFlag
  · simp [hv, scheduledOf, watchdogStarted]
  · simp only [hv, if_false, Bool.false_eq_true]
    by_cases hl : env.listFlag
    · simp [hl, scheduledOf, watchdogStarted]
    · simp only [hl, if_false, Bool.false_eq_true]
      cases hp : parseHost env.host env.urlParse with
      | error e => simp [scheduledOf, watchdogStarted]
      | ok u =>
        by_cases hm : !env.disableMetadata && env.metadataInitErr.isSome
        · simp [hm, scheduledOf, watchdogStarted]
        · simp only [hm, if_false, Bool.false_eq_true]
          by_cases hpr : !env.printFlag
          · simp only [hpr, if_true]
            cases hic : env.initChanErr with
            | some e => simp [scheduledOf, watchdogStarted, hpr]
            | none => simp [scheduledOf, watchdogStarted, hpr]
          · simp only [hpr, if_false, Bool.false_eq_true]
            simp only [Bool.not_eq_true'] at hpr
            simp [scheduledOf, watchdogStarted, hpr]

/-- A startup environment with the list flag set and an unparseable
(empty) endpoint address. -/
def envListBadHost : MainEnv :=
  { versionFlag := false, listFlag := true, printFlag := false
    disableMetadata := true, filter := "", host := ""
    colls := [⟨"c1", none⟩], urlParse := fun _ => none
    metadataInitErr := none, initChanErr := none }

/-- Claim C5 counterexample: with the list flag set, a configuration whose
endpoint address is unparseable does not end in a fatal error — `main`
checks `err` only in the `else if` after the `-l` branch (lines 163–167),
so it lists the selected collectors and returns normally. -/
theorem unparseable_host_list_mode_exits_normally_cex :
    parseHost envListBadHost.host envListBadHost.urlParse
        = .error "empty host"
      ∧ mainModel envListBadHost = .listExit ["c1"]
      ∧ mainModel envListBadHost ≠ .fatalInvalidHost := by
  exact ⟨rfl, rfl, by decide⟩

/-- Claim C5 (amended): when neither the version flag nor the list flag is
set, every startup configuration whose endpoint address is unparseable as
a URL terminates the process with a fatal error at startup; with the list
flag set the process still terminates at startup, but normally, after
listing. -/
theorem unparseable_host_fatal_without_list_flag (env : MainEnv)
    (hv : env.versionFlag = false) (hl : env.listFlag = false)
    (e : String) (hp : parseHost env.host env.urlParse = .error e) :
    mainModel env = .fatalInvalidHost := by
  simp [mainModel, hv, hl, hp]

/-- A network-mode startup environment with an unparseable (empty)
endpoint address. -/
def envBadHost : MainEnv :=
  { versionFlag := false, listFlag := false, printFlag := false
    disableMetadata := true, filter := "", host := ""
    colls := [], urlParse := fun _ => none
    metadataInitErr := none, initChanErr := none }

/-- Witness for the amended C5: the empty endpoint address is rejected as
a fatal startup error. -/
theorem unparseable_host_fatal_without_list_flag_witness :
    mainModel envBadHost = .fatalInvalidHost :=
  unparseable_host_fatal_without_list_flag envBadHost rfl rfl
    "empty host" rfl

/-- Claim C7: with the list flag set, `main` prints one line per selected
collector, carrying its name, and exits: the scheduler is never started
(so no collector's `collect` is ever invoked by it), and neither the
sender nor the watchdog runs. -/
theorem list_flag_prints_names_and_exits (env : MainEnv)
    (hv : env.versionFlag = false) (hl : env.listFlag = true) :
    mainModel env = .listExit (list (search env.colls env.filter))
      ∧ scheduledOf (mainModel env) = none
      ∧ watchdogStarted (mainModel env) = false := by
  have h1 : mainModel env = .listExit (list (search env.colls env.filter)) := by
    simp [mainModel, hv, hl]
  exact ⟨h1, by rw [h1]; rfl, by rw [h1]; rfl⟩

/-- A startup environment with the list flag and a filter selecting one of
two registered collectors. -/
def envList : MainEnv :=
  { versionFlag := false, listFlag := true, printFlag := false
    disableMetadata := false, filter := "icmp", host := "bosun"
    colls := [⟨"icmp-a", none⟩, ⟨"vsphere-b", none⟩]
    urlParse := fun _ => some "http://bosun"
    metadataInitErr := none, initChanErr := none }

/-- Witness for C7: the `icmp` filter selects exactly `icmp-a`, whose name
is the single printed line, and nothing is scheduled. -/
theorem list_flag_prints_names_and_exits_witness :
    mainModel envList = .listExit ["icmp-a"]
      ∧ scheduledOf (mainModel envList) = none
      ∧ watchdogStarted (mainModel envList) = false := by
  obtain ⟨h1, h2, h3⟩ := list_flag_prints_names_and_exits envList rfl rfl
  refine ⟨?_, h2, h3⟩
  rw [h1]
  rfl

/-! ## ICMP collector (`src/unnamed/part_000`, `c_icmp`, lines 28–47)

```go
func c_icmp(host string) (opentsdb.MultiDataPoint, error) {
    var md opentsdb.MultiDataPoint
    p := fastping.NewPinger()
    ra, err := net.ResolveIPAddr("ip4:icmp", host)
    if err != nil {
        return nil, err
    }
    p.AddIPAddr(ra)
    p.MaxRTT = time.Second * 5
    timeout := 1
    p.AddHandler("receive", func(addr *net.IPAddr, t time.Duration) {
        Add(&md, "ping.rtt", float64(t)/float64(time.Millisecond), ...)
        timeout = 0
    })
    if err := p.Run(); err != nil {
        return nil, err
    }
    Add(&md, "ping.timeout", timeout, opentsdb.TagSet{"dst_host": host}, ...)
    return md, nil
}
```

The environment carries the address-resolution result, the round-trip
durations (nanoseconds) handed to the `receive` handler during `p.Run()`
— per the fastping contract the handler fires only for echo replies that
arrive within the `MaxRTT` (5 s) window — and the error `p.Run()`
returns after the handlers have fired. -/

structure IcmpEnv where
  resolve : Except String Unit
  pingReplies : List Int
  runErr : Option String

/-- `p.MaxRTT = time.Second * 5`, in nanoseconds (`time.Duration`). -/
def icmpMaxRTTNanos : Int := 5 * 1000000000

/-- The point the `receive` handler constructs: round-trip time in
milliseconds (`float64(t)/float64(time.Millisecond)`), tagged with the
destination host. -/
def icmpRttPoint (host : String) (now : Int) (dt : List (String × String))
    (t : Int) : DataPoint :=
  ⟨"ping.rtt", .rat ((t : ℚ) / 1000000), mergeTags [("dst_host", host)] dt, now⟩

/-- The final point of a successful invocation: `timeout` is `1` unless
some echo reply was received, in which case the handler reset it to
`0`. -/
def icmpTimeoutPoint (host : String) (now : Int)
    (dt : List (String × String)) (received : Bool) : DataPoint :=
  ⟨"ping.timeout", .int (if received then 0 else 1),
    mergeTags [("dst_host", host)] dt, now⟩

/-- `c_icmp` from `src/unnamed/part_000`: the Go pair
`(opentsdb.MultiDataPoint, error)` is `Option (List DataPoint) ×
Option String` (a `nil` slice is `none`).  On a `p.Run()` error the
batch the handlers built is discarded and `nil` returned. -/
def c_icmp (host : String) (now : Int) (dt : List (String × String))
    (env : IcmpEnv) : Option (List DataPoint) × Option String :=
  match env.resolve with
  | .error e => (none, some e)
  | .ok _ =>
    let s := env.pingReplies.foldl
      (fun (s : List DataPoint × Int) (t : Int) =>
        (addPoint s.1 "ping.rtt" (.rat ((t : ℚ) / 1000000))
          [("dst_host", host)] dt now, 0))
      ([], 1)
    match env.runErr with
    | some e => (none, some e)
    | none =>
      (some (addPoint s.1 "ping.timeout" (.int s.2)
        [("dst_host", host)] dt now), none)

theorem icmp_receive_foldl (host : String) (now : Int)
    (dt : List (String × String)) (hdt : uniqueKeys dt = true)
    (l : List Int) (acc : List DataPoint) (x : Int) :
    l.foldl
        (fun (s : List DataPoint × Int) (t : Int) =>
          (addPoint s.1 "ping.rtt" (.rat ((t : ℚ) / 1000000))
            [("dst_host", host)] dt now, 0))
        (acc, x)
      = (acc ++ l.map (icmpRttPoint host now dt),
          if l.isEmpty then x else 0) := by
  induction l generalizing acc x with
  | nil => simp
  | cons t rest ih =>
    simp only [List.foldl_cons, List.map_cons, List.isEmpty_cons]
    rw [addPoint_eq_append _ _ _ _ _ _
      (uniqueKeys_mergeTags _ _ (by simp [uniqueKeys]) hdt), ih]
    simp [icmpRttPoint]

/-- Claim C9: every successful `c_icmp` invocation returns the batch
consisting of one `ping.rtt` point per echo reply received within the
5-second `MaxRTT` window (round-trip time in milliseconds) followed by
exactly one `ping.timeout` point tagged `dst_host=host`, whose value is
`0` when a reply was received and `1` otherwise; so `ping.rtt` points
appear only when a reply was received, and they precede the `ping.timeout`
point. -/
theorem c_icmp_success_shape (host : String) (now : Int)
    (dt : List (String × String)) (env : IcmpEnv)
    (hdt : uniqueKeys dt = true)
    (hres : env.resolve = .ok ()) (hrun : env.runErr = none) :
    c_icmp host now dt env
        = (some (env.pingReplies.map (icmpRttPoint host now dt)
            ++ [icmpTimeoutPoint host now dt (!env.pingReplies.isEmpty)]), none)
      ∧ (env.pingReplies.map (icmpRttPoint host now dt)
            ++ [icmpTimeoutPoint host now dt (!env.pingReplies.isEmpty)]).filter
            (fun p => decide (p.metric = "ping.timeout"))
          = [icmpTimeoutPoint host now dt (!env.pingReplies.isEmpty)]
      ∧ (icmpTimeoutPoint host now dt
            (!env.pingReplies.isEmpty)).tags.lookup "dst_host" = some host := by
  refine ⟨?_, ?_, ?_⟩
  · unfold c_icmp
    rw [hres, hrun]
    dsimp only
    rw [icmp_receive_foldl host now dt hdt]
    rw [addPoint_eq_append _ _ _ _ _ _
      (uniqueKeys_mergeTags _ _ (by simp [uniqueKeys]) hdt)]
    simp only [List.nil_append, icmpTimeoutPoint]
    cases he : env.pingReplies.isEmpty <;> simp
  · rw [List.filter_append]
    have h1 : (env.pingReplies.map (icmpRttPoint host now dt)).filter
        (fun p => decide (p.metric = "ping.timeout")) = [] := by
      rw [List.filter_eq_nil_iff]
      intro p hp
      rcases List.mem_map.mp hp with ⟨t, ht, rfl⟩
      simp [icmpRttPoint]
    rw [h1]
    simp [icmpTimeoutPoint]
  · simp [icmpTimeoutPoint, mergeTags, List.lookup]

/-- Witness for C9: one echo reply of 5 ms against host `target`, with a
default tagset carrying the local host tag; the batch is the rtt point
followed by the timeout point with value 0. -/
theorem c_icmp_success_shape_witness :
    c_icmp "target" 0 [("host", "me")] ⟨.ok (), [5000000], none⟩
      = (some [icmpRttPoint "target" 0 [("host", "me")] 5000000,
          icmpTimeoutPoint "target" 0 [("host", "me")] true], none) :=
  (c_icmp_success_shape "target" 0 [("host", "me")]
    ⟨.ok (), [5000000], none⟩ (by decide) rfl rfl).1

/-! ## Windows system collector (`src/collectors/system_windows.go`)

```go
func c_system_windows() (opentsdb.MultiDataPoint, error) {
    var dst []Win32_PerfRawData_PerfOS_System
    var q = wmi.CreateQuery(&dst, "")
    err := queryWmi(q, &dst)
    if err != nil {
        return nil, err
    }
    var md opentsdb.MultiDataPoint
    for _, v := range dst {
        var uptime = (v.Timestamp_Object - v.SystemUpTime) / v.Frequency_Object
        Add(&md, "win.system.uptime", uptime, nil, ...)
        Add(&md, "win.system.processes", v.Processes, nil, ...)
        Add(&md, osSystemUptime, uptime, nil, ...)
    }
    return md, nil
}
```

`Frequency_Object`, `SystemUpTime`, `Timestamp_Object` are `uint64` and
`Processes` is `uint32`: values are `Nat` below, constrained to the
machine range in the theorems.  Go `uint64` subtraction wraps modulo
`2 ^ 64`; integer division by zero is a run-time panic, modelled as the
`none` outcome. -/

structure Win32_PerfRawData_PerfOS_System where
  Frequency_Object : Nat
  Processes : Nat
  SystemUpTime : Nat
  Timestamp_Object : Nat
  deriving DecidableEq

/-- The `uint64` difference `Timestamp_Object - SystemUpTime`: wraps
modulo `2 ^ 64` (for operands below `2 ^ 64`). -/
def winUptimeWrap (ts su : Nat) : Nat :=
  (ts + 2 ^ 64 - su) % 2 ^ 64

/-- The uptime expression of `c_system_windows`:
`(v.Timestamp_Object - v.SystemUpTime) / v.Frequency_Object` over
`uint64`, with the division-by-zero panic as `none`. -/
def winUptime (ts su freq : Nat) : Option Nat :=
  if freq = 0 then none else some (winUptimeWrap ts su / freq)

/-- Modelled from the spec: metric-name constant declared elsewhere in the
`collectors` package, outside the verified sources. -/
def osSystemUptime : String := "os.system.uptime"

/-- The three points one WMI result row contributes, in source order. -/
def winRowPoints (now : Int) (dt : List (String × String))
    (md : List DataPoint) (v : Win32_PerfRawData_PerfOS_System) :
    List DataPoint :=
  let uptime : Int := winUptimeWrap v.Timestamp_Object v.SystemUpTime
    / v.Frequency_Object
  addPoint
    (addPoint
      (addPoint md "win.system.uptime" (.int uptime) [] dt now)
      "win.system.processes" (.int v.Processes) [] dt now)
    osSystemUptime (.int uptime) [] dt now

/-- `c_system_windows`: the WMI query result is an oracle; the outer
`none` is the run-time panic raised when some row divides by a zero
`Frequency_Object` (the code has no guard). -/
def c_system_windows (now : Int) (dt : List (String × String))
    (q : Except String (List Win32_PerfRawData_PerfOS_System)) :
    Option (Option (List DataPoint) × Option String) :=
  match q with
  | .error e => some (none, some e)
  | .ok rows =>
    if rows.all (fun v => decide (v.Frequency_Object ≠ 0)) then
      some (some (rows.foldl (winRowPoints now dt) []), none)
    else none

/-- Claim C8: the uptime computation of `c_system_windows` is unguarded —
it succeeds exactly under the precondition `Frequency_Object ≠ 0` (a zero
frequency reaches the division's panic, and a row with zero frequency
makes the whole collector invocation panic), and the `uint64` subtraction
wraps modulo `2 ^ 64` whenever `SystemUpTime > Timestamp_Object`. -/
theorem win_uptime_unguarded (ts su f : Nat)
    (hts : ts < 2 ^ 64) (hsu : su < 2 ^ 64) :
    ((winUptime ts su f).isSome ↔ f ≠ 0)
      ∧ (su ≤ ts → f ≠ 0 → winUptime ts su f = some ((ts - su) / f))
      ∧ (ts < su → f ≠ 0 → winUptime ts su f = some ((ts + 2 ^ 64 - su) / f))
      ∧ (∀ (now : Int) (dt : List (String × String)) rows,
          c_system_windows now dt (.ok rows) = none
            ↔ ∃ v ∈ rows, v.Frequency_Object = 0) := by
  have hM : (2 : Nat) ^ 64 = 18446744073709551616 := by norm_num
  refine ⟨?_, ?_, ?_, ?_⟩
  · unfold winUptime
    by_cases hf : f = 0 <;> simp [hf]
  · intro hle hf
    unfold winUptime winUptimeWrap
    rw [if_neg hf]
    have h1 : ts + 2 ^ 64 - su = (ts - su) + 2 ^ 64 := by omega
    rw [h1, Nat.add_mod_right, Nat.mod_eq_of_lt (by omega)]
  · intro hlt hf
    unfold winUptime winUptimeWrap
    rw [if_neg hf, Nat.mod_eq_of_lt (by omega)]
  · intro now dt rows
    unfold c_system_windows
    dsimp only
    by_cases hall : rows.all (fun v => decide (v.Frequency_Object ≠ 0))
    · rw [if_pos hall]
      simp only [List.all_eq_true, decide_eq_true_eq] at hall
      simp only [reduceCtorEq, false_iff, not_exists]
      intro v hv
      exact hall v hv.1 hv.2
    · rw [if_neg hall]
      simp only [List.all_eq_true, decide_eq_true_eq] at hall
      push_neg at hall
      simpa using hall

/-- Witness for C8 in the wrapping case: `SystemUpTime > Timestamp_Object`
yields the modulo-`2 ^ 64` difference divided by the frequency. -/
theorem win_uptime_unguarded_witness :
    winUptime 3 10 2 = some ((3 + 2 ^ 64 - 10) / 2) :=
  (win_uptime_unguarded 3 10 2 (by norm_num) (by norm_num)).2.2.1
    (by norm_num) (by norm_num)

/-! ## vSphere collector (`src/unnamed/part_000`, `c_vsphere`,
`vsphereHost`, `vsphereDatastore`)

`v.Info` returns records of properties; each property is a named value
with an XML-schema type tag and a textual payload (`p.Name`,
`p.Val.Type`, `p.Val.Inner`).  Integer payloads go through
`strconv.ParseInt(s, 10, 64)`; Go `int64` arithmetic wraps modulo
`2 ^ 64` (values in `[-2 ^ 63, 2 ^ 63)`), modelled by `wrap64`. -/

/-- Go `int64` wraparound: reduce an exact integer into
`[-2 ^ 63, 2 ^ 63)`. -/
def wrap64 (n : Int) : Int :=
  (n + 2 ^ 63) % 2 ^ 64 - 2 ^ 63

theorem wrap64_bounds (n : Int) :
    -(2 ^ 63) ≤ wrap64 n ∧ wrap64 n < 2 ^ 63 := by
  unfold wrap64
  omega

theorem wrap64_eq_self (n : Int) (h1 : -(2 ^ 63) ≤ n) (h2 : n < 2 ^ 63) :
    wrap64 n = n := by
  unfold wrap64
  omega

/-- Decimal digit run: `none` unless the character list is a non-empty
string of digits. -/
def digitsToNat (cs : List Char) : Option Nat :=
  if cs.isEmpty then none
  else
    cs.foldl
      (fun acc c =>
        match acc with
        | none => none
        | some n => if c.isDigit then some (n * 10 + (c.toNat - 48)) else none)
      (some 0)

/-- Optional leading sign of a decimal literal. -/
def parseSign : List Char → Bool × List Char
  | '+' :: rest => (false, rest)
  | '-' :: rest => (true, rest)
  | cs => (false, cs)

/-- `strconv.ParseInt(s, 10, 64)`: optional sign, at least one decimal
digit, value within the `int64` range; everything else is a parse error
(`none`). -/
def parseInt64 (s : String) : Option Int :=
  match parseSign s.data with
  | (neg, ds) =>
    match digitsToNat ds with
    | none => none
    | some n =>
      if neg then (if n ≤ 2 ^ 63 then some (-(n : Int)) else none)
      else (if n < 2 ^ 63 then some ((n : Int)) else none)

theorem parseInt64_range (s : String) (t : Int)
    (h : parseInt64 s = some t) : -(2 ^ 63) ≤ t ∧ t < 2 ^ 63 := by
  unfold parseInt64 at h
  rcases hps : parseSign s.data with ⟨neg, ds⟩
  rw [hps] at h
  dsimp only at h
  cases hdig : digitsToNat ds with
  | none => rw [hdig] at h; simp at h
  | some n =>
    rw [hdig] at h
    dsimp only at h
    cases neg with
    | true =>
      simp only [if_true] at h
      split at h
      · injection h with h
        omega
      · simp at h
    | false =>
      simp only [Bool.false_eq_true, if_false] at h
      split at h
      · injection h with h
        omega
      · simp at h

/-- A property of a vSphere record: `p.Name`, `p.Val.Type`,
`p.Val.Inner`. -/
structure VProp where
  Name : String
  valType : String
  valInner : String
  deriving DecidableEq

/-- One record returned by `v.Info`. -/
structure VRecord where
  Props : List VProp
  deriving DecidableEq

/-- Modelled from the spec: OS-namespace metric-name constants
(`osMemTotal`, `osMemUsed`, `osMemFree`, `osMemPctFree`, `osDiskTotal`,
`osDiskUsed`, `osDiskPctFree`) are declared elsewhere in the `collectors`
package, outside the verified sources; only their distinctness matters to
the claims. -/
def osMemTotal : String := "os.mem.total"

def osMemUsed : String := "os.mem.used"

def osMemFree : String := "os.mem.free"

def osMemPctFree : String := "os.mem.percent_free"

def osDiskTotal : String := "os.disk.fs.space_total"

def osDiskUsed : String := "os.disk.fs.space_used"

def osDiskPctFree : String := "os.disk.fs.percent_free"

/-- The local integer state of `vsphereHost`'s per-record loop, together
with the batch and the function-wide `Error` variable. -/
structure VHostState where
  md : List DataPoint
  err : Option String
  memTotal : Int
  memUsed : Int
  cpuMhz : Int
  cpuCores : Int
  cpuUse : Int

/-- The body of `vsphereHost`'s property loop (`src/unnamed/part_000`,
lines 172–196): integer-typed properties are parsed (a parse failure sets
`Error` and continues) and dispatched on the property name. -/
def vsphereHostProp (now : Int) (dt : List (String × String))
    (name : String) (st : VHostState) (p : VProp) : VHostState :=
  if p.valType = "xsd:long" ∨ p.valType = "xsd:int" ∨ p.valType = "xsd:short" then
    match parseInt64 p.valInner with
    | none => { st with err := some "vsphere bad integer" }
    | some i =>
      if p.Name = "summary.hardware.memorySize" then
        { st with
            md := addPoint st.md osMemTotal (.int i) [("host", name)] dt now
            memTotal := i }
      else if p.Name = "summary.quickStats.overallMemoryUsage" then
        { st with
            md := addPoint st.md osMemUsed (.int (wrap64 (i * 1024 * 1024)))
              [("host", name)] dt now
            memUsed := wrap64 (i * 1024 * 1024) }
      else if p.Name = "summary.hardware.cpuMhz" then
        { st with cpuMhz := i }
      else if p.Name = "summary.quickStats.overallCpuUsage" then
        { st with
            md := addPoint st.md "vsphere.cpu" (.int i)
              [("host", name), ("type", "usage")] dt now
            cpuUse := i }
      else if p.Name = "summary.hardware.numCpuCores" then
        { st with cpuCores := i }
      else st
  else st

/-- One record of `vsphereHost`'s record loop (`src/unnamed/part_000`,
lines 155–206): extract and clean the name (empty name sets `Error` and
skips the record), run the property loop, then append the derived memory
and cpu metrics under their positivity guards. -/
def vsphereHostRecord (clean : String → String) (now : Int)
    (dt : List (String × String)) (acc : List DataPoint × Option String)
    (r : VRecord) : List DataPoint × Option String :=
  let name :=
    match r.Props.find? (fun p => decide (p.Name = "name")) with
    | some p => clean p.valInner
    | none => ""
  if name = "" then (acc.1, some "vsphere: empty name")
  else
    let st := r.Props.foldl (vsphereHostProp now dt name)
      ⟨acc.1, acc.2, 0, 0, 0, 0, 0⟩
    let md1 :=
      if 0 < st.memTotal ∧ 0 < st.memUsed then
        addPoint
          (addPoint st.md osMemFree (.int (wrap64 (st.memTotal - st.memUsed)))
            [("host", name)] dt now)
          osMemPctFree
          (.rat (((wrap64 (st.memTotal - st.memUsed) : Int) : ℚ)
            / (st.memTotal : ℚ) * 100))
          [("host", name)] dt now
      else st.md
    let md2 :=
      if 0 < st.cpuMhz ∧ 0 < st.cpuUse ∧ 0 < st.cpuCores then
        addPoint
          (addPoint md1 "vsphere.cpu"
            (.int (wrap64 (wrap64 (st.cpuMhz * st.cpuCores) - st.cpuUse)))
            [("host", name), ("type", "idle")] dt now)
          "vsphere.cpu.pct"
          (.rat ((st.cpuUse : ℚ) / ((wrap64 (st.cpuMhz * st.cpuCores) : Int) : ℚ)
            * 100))
          [("host", name)] dt now
      else md1
    (md2, st.err)

/-- `vsphereHost` (`src/unnamed/part_000`, lines 141–209): the `v.Info`
result is an oracle; on a query error the incoming batch is returned with
the error, otherwise the record loop runs with the function-wide `Error`
variable initially `nil`. -/
def vsphereHost (clean : String → String) (now : Int)
    (dt : List (String × String))
    (hostInfo : Except String (List VRecord)) (md : List DataPoint) :
    List DataPoint × Option String :=
  match hostInfo with
  | .error e => (md, some e)
  | .ok res => res.foldl (vsphereHostRecord clean now dt) (md, none)

/-- The local state of `vsphereDatastore`'s per-record loop. -/
structure VDiskState where
  md : List DataPoint
  err : Option String
  diskTotal : Int
  diskFree : Int

/-- The body of `vsphereDatastore`'s property loop
(`src/unnamed/part_000`, lines 112–130). -/
def vsphereDatastoreProp (now : Int) (dt : List (String × String))
    (tags : List (String × String)) (st : VDiskState) (p : VProp) :
    VDiskState :=
  if p.valType = "xsd:long" ∨ p.valType = "xsd:int" ∨ p.valType = "xsd:short" then
    match parseInt64 p.valInner with
    | none => { st with err := some "vsphere bad integer" }
    | some i =>
      if p.Name = "summary.capacity" then
        { st with
            md := addPoint
              (addPoint st.md osDiskTotal (.int i) tags dt now)
              "vsphere.disk.space_total" (.int i) tags dt now
            diskTotal := i }
      else if p.Name = "summary.freeSpace" then
        { st with
            md := addPoint st.md "vsphere.disk.space_free" (.int i) tags dt now
            diskFree := i }
      else st
  else st

/-- One record of `vsphereDatastore`'s record loop
(`src/unnamed/part_000`, lines 95–137): the name is taken raw (no
cleaning), the tags are `disk=name, host=""`, and the derived disk
metrics are appended under the positivity guard. -/
def vsphereDatastoreRecord (now : Int) (dt : List (String × String))
    (acc : List DataPoint × Option String) (r : VRecord) :
    List DataPoint × Option String :=
  let name :=
    match r.Props.find? (fun p => decide (p.Name = "name")) with
    | some p => p.valInner
    | none => ""
  if name = "" then (acc.1, some "vsphere: empty name")
  else
    let tags := [("disk", name), ("host", "")]
    let st := r.Props.foldl (vsphereDatastoreProp now dt tags)
      ⟨acc.1, acc.2, 0, 0⟩
    let md1 :=
      if 0 < st.diskTotal ∧ 0 < st.diskFree then
        addPoint
          (addPoint
            (addPoint st.md "vsphere.disk.space_used"
              (.int (wrap64 (st.diskTotal - st.diskFree))) tags dt now)
            osDiskUsed (.int (wrap64 (st.diskTotal - st.diskFree))) tags dt now)
          osDiskPctFree
          (.rat ((st.diskFree : ℚ) / (st.diskTotal : ℚ) * 100)) tags dt now
      else st.md
    (md1, st.err)

/-- `vsphereDatastore` (`src/unnamed/part_000`, lines 85–139). -/
def vsphereDatastore (now : Int) (dt : List (String × String))
    (dsInfo : Except String (List VRecord)) (md : List DataPoint) :
    List DataPoint × Option String :=
  match dsInfo with
  | .error e => (md, some e)
  | .ok res => res.foldl (vsphereDatastoreRecord now dt) (md, none)

/-- The vSphere environment: the connection attempt and the two `v.Info`
query results. -/
structure VsphereEnv where
  connect : Except String Unit
  hostInfo : Except String (List VRecord)
  dsInfo : Except String (List VRecord)

/-- `c_vsphere` (`src/unnamed/part_000`, lines 70–83): on any error —
connection, host query or datastore query, including a non-`nil` `Error`
accumulated by the loops after points were already built into `md` — the
batch is discarded and `nil` returned. -/
def c_vsphere (clean : String → String) (now : Int)
    (dt : List (String × String)) (env : VsphereEnv) :
    Option (List DataPoint) × Option String :=
  match env.connect with
  | .error e => (none, some e)
  | .ok _ =>
    match vsphereHost clean now dt env.hostInfo [] with
    | (_, some e) => (none, some e)
    | (md1, none) =>
      match vsphereDatastore now dt env.dsInfo md1 with
      | (_, some e) => (none, some e)
      | (md2, none) => (some md2, none)

/-- A `HostSystem` record carrying a name, a `memorySize` reading and an
`overallMemoryUsage` reading (the two operands of the derived memory
metrics). -/
def memRecord (nm ts us : String) : VRecord :=
  ⟨[⟨"name", "xsd:string", nm⟩,
    ⟨"summary.hardware.memorySize", "xsd:long", ts⟩,
    ⟨"summary.quickStats.overallMemoryUsage", "xsd:long", us⟩]⟩

theorem memRecord_prop_foldl (now : Int) (dt : List (String × String))
    (name : String) (nm ts us : String) (t u : Int)
    (ht : parseInt64 ts = some t) (hu : parseInt64 us = some u) :
    (memRecord nm ts us).Props.foldl (vsphereHostProp now dt name)
        ⟨[], none, 0, 0, 0, 0, 0⟩
      = ⟨addPoint (addPoint [] osMemTotal (.int t) [("host", name)] dt now)
            osMemUsed (.int (wrap64 (u * 1024 * 1024))) [("host", name)] dt now,
          none, t, wrap64 (u * 1024 * 1024), 0, 0, 0⟩ := by
  simp [memRecord, vsphereHostProp, ht, hu]

theorem memRecord_find_name (nm ts us : String) :
    (memRecord nm ts us).Props.find? (fun p => decide (p.Name = "name"))
      = some ⟨"name", "xsd:string", nm⟩ := by
  simp [memRecord, List.find?]

/-- Claim C10 counterexample: a host record whose parsed operands are both
positive (`memorySize = 42`, `overallMemoryUsage = 2 ^ 43` MB, both
accepted by `strconv.ParseInt`), yet no `os.mem.free` point is emitted:
the byte conversion `overallMemoryUsage * 1024 * 1024` wraps to
`-2 ^ 63` in `int64` arithmetic, so the code's guard
`memTotal > 0 && memUsed > 0` fails although the claim requires the point
to be appended whenever both operands are positive. -/
theorem vsphere_memfree_overflow_cex :
    parseInt64 "42" = some 42
      ∧ parseInt64 "8796093022208" = some 8796093022208
      ∧ (0 : Int) < 42 ∧ (0 : Int) < 8796093022208
      ∧ wrap64 (8796093022208 * 1024 * 1024) = -(2 ^ 63)
      ∧ (vsphereHostRecord id 0 [] ([], none)
            (memRecord "esx1" "42" "8796093022208")).1.filter
          (fun p => decide (p.metric = osMemFree)) = [] := by
  refine ⟨by decide, by decide, by decide, by decide, by decide, ?_⟩
  decide

/-- Claim C10 (amended): for a host record carrying `memorySize` parsed as
`t` and `overallMemoryUsage` parsed as `u`, let `m` be the byte
conversion `u * 1024 * 1024` in wrapping `int64` arithmetic.  The
`os.mem.free` point is appended if and only if `t > 0` and `m > 0` (which
coincides with `u > 0` exactly when the conversion does not overflow),
with exact value `t - m`; the percent-free point is appended under the
same guard with value `free / total * 100`, both tagged with the cleaned
host name. -/
theorem vsphere_memfree_guard_and_value
    (clean : String → String) (now : Int) (dt : List (String × String))
    (nm ts us : String) (t u : Int)
    (hdt : uniqueKeys dt = true) (hnm : clean nm ≠ "")
    (ht : parseInt64 ts = some t) (hu : parseInt64 us = some u) :
    ((vsphereHostRecord clean now dt ([], none) (memRecord nm ts us)).1.filter
        (fun p => decide (p.metric = osMemFree))
      = (if 0 < t ∧ 0 < wrap64 (u * 1024 * 1024) then
          [⟨osMemFree, .int (t - wrap64 (u * 1024 * 1024)),
            mergeTags [("host", clean nm)] dt, now⟩]
        else []))
    ∧ ((vsphereHostRecord clean now dt ([], none) (memRecord nm ts us)).1.filter
        (fun p => decide (p.metric = osMemPctFree))
      = (if 0 < t ∧ 0 < wrap64 (u * 1024 * 1024) then
          [⟨osMemPctFree,
            .rat (((t - wrap64 (u * 1024 * 1024) : Int) : ℚ) / (t : ℚ) * 100),
            mergeTags [("host", clean nm)] dt, now⟩]
        else [])) := by
  have hu1 : uniqueKeys (mergeTags [("host", clean nm)] dt) = true :=
    uniqueKeys_mergeTags _ _ (by simp [uniqueKeys]) hdt
  have hfree : 0 < t ∧ 0 < wrap64 (u * 1024 * 1024) →
      wrap64 (t - wrap64 (u * 1024 * 1024)) = t - wrap64 (u * 1024 * 1024) := by
    intro hg
    have hb := wrap64_bounds (u * 1024 * 1024)
    have hr := parseInt64_range ts t ht
    exact wrap64_eq_self _ (by omega) (by omega)
  have hmd : (vsphereHostRecord clean now dt ([], none)
        (memRecord nm ts us)).1
      = (if 0 < t ∧ 0 < wrap64 (u * 1024 * 1024) then
          [⟨osMemTotal, .int t, mergeTags [("host", clean nm)] dt, now⟩,
           ⟨osMemUsed, .int (wrap64 (u * 1024 * 1024)),
             mergeTags [("host", clean nm)] dt, now⟩,
           ⟨osMemFree, .int (wrap64 (t - wrap64 (u * 1024 * 1024))),
             mergeTags [("host", clean nm)] dt, now⟩,
           ⟨osMemPctFree,
             .rat (((wrap64 (t - wrap64 (u * 1024 * 1024)) : Int) : ℚ)
               / (t : ℚ) * 100),
             mergeTags [("host", clean nm)] dt, now⟩]
        else
          [⟨osMemTotal, .int t, mergeTags [("host", clean nm)] dt, now⟩,
           ⟨osMemUsed, .int (wrap64 (u * 1024 * 1024)),
             mergeTags [("host", clean nm)] dt, now⟩]) := by
    unfold vsphereHostRecord
    rw [memRecord_find_name]
    dsimp only
    rw [if_neg hnm]
    rw [memRecord_prop_foldl now dt (clean nm) nm ts us t u ht hu]
    dsimp only
    rw [if_neg (by norm_num :
      ¬ (0 < (0 : Int) ∧ 0 < (0 : Int) ∧ 0 < (0 : Int)))]
    by_cases hg : 0 < t ∧ 0 < wrap64 (u * 1024 * 1024)
    · rw [if_pos hg, if_pos hg]
      simp only [addPoint_eq_append _ _ _ _ _ _ hu1, List.nil_append,
        List.cons_append, List.singleton_append, List.append_assoc]
    · rw [if_neg hg, if_neg hg]
      simp only [addPoint_eq_append _ _ _ _ _ _ hu1, List.nil_append,
        List.cons_append, List.singleton_append, List.append_assoc]
  constructor
  · rw [hmd]
    by_cases hg : 0 < t ∧ 0 < wrap64 (u * 1024 * 1024)
    · rw [if_pos hg, if_pos hg, hfree hg]
      simp [List.filter, osMemTotal, osMemUsed, osMemFree, osMemPctFree]
    · rw [if_neg hg, if_neg hg]
      simp [List.filter, osMemTotal, osMemUsed, osMemFree]
  · rw [hmd]
    by_cases hg : 0 < t ∧ 0 < wrap64 (u * 1024 * 1024)
    · rw [if_pos hg, if_pos hg, hfree hg]
      simp [List.filter, osMemTotal, osMemUsed, osMemFree, osMemPctFree]
    · rw [if_neg hg, if_neg hg]
      simp [List.filter, osMemTotal, osMemUsed, osMemPctFree]

/-- Witness for the amended C10: `memorySize = 100` bytes,
`overallMemoryUsage = 2` MB; the conversion does not overflow, the guard
holds, and both derived memory points are emitted. -/
theorem vsphere_memfree_guard_and_value_witness :
    ((vsphereHostRecord id 0 [] ([], none)
          (memRecord "h" "100" "2")).1.filter
        (fun p => decide (p.metric = osMemFree))
      = (if 0 < (100 : Int) ∧ 0 < wrap64 (2 * 1024 * 1024) then
          [⟨osMemFree, .int (100 - wrap64 (2 * 1024 * 1024)),
            mergeTags [("host", id "h")] [], 0⟩]
        else []))
    ∧ ((vsphereHostRecord id 0 [] ([], none)
          (memRecord "h" "100" "2")).1.filter
        (fun p => decide (p.metric = osMemPctFree))
      = (if 0 < (100 : Int) ∧ 0 < wrap64 (2 * 1024 * 1024) then
          [⟨osMemPctFree,
            .rat ((((100 : Int) - wrap64 (2 * 1024 * 1024) : Int) : ℚ)
              / ((100 : Int) : ℚ) * 100),
            mergeTags [("host", id "h")] [], 0⟩]
        else [])) :=
  vsphere_memfree_guard_and_value id 0 [] "h" "100" "2" 100 2
    (by decide) (by decide) (by decide) (by decide)

/-- Claim C2: for every invocation of the collectors in the verified
sources that returns a non-nil error, the returned sample batch is nil —
no partial points from that cycle are handed to the pipeline.  For
`c_icmp` this holds even when the `receive` handler already appended
`ping.rtt` points before `p.Run()` failed, and for `c_vsphere` even when
the host/datastore loops already built points into `md` before an error
(query failure, empty name, bad integer) was recorded; `c_system_windows`
likewise returns nil on a query error. -/
theorem collector_error_returns_nil_batch :
    (∀ (host : String) (now : Int) (dt : List (String × String))
        (env : IcmpEnv) (e : String),
        (c_icmp host now dt env).2 = some e
          → (c_icmp host now dt env).1 = none)
      ∧ (∀ (clean : String → String) (now : Int)
          (dt : List (String × String)) (env : VsphereEnv) (e : String),
          (c_vsphere clean now dt env).2 = some e
            → (c_vsphere clean now dt env).1 = none)
      ∧ (∀ (now : Int) (dt : List (String × String))
          (q : Except String (List Win32_PerfRawData_PerfOS_System))
          (r : Option (List DataPoint) × Option String) (e : String),
          c_system_windows now dt q = some r → r.2 = some e
            → r.1 = none) := by
  refine ⟨?_, ?_, ?_⟩
  · intro host now dt env e h
    unfold c_icmp at h ⊢
    cases henv : env.resolve with
    | error er => simp
    | ok u =>
      rw [henv] at h
      dsimp only at h ⊢
      cases hrun : env.runErr with
      | some er => simp
      | none =>
        rw [hrun] at h
        simp at h
  · intro clean now dt env e h
    unfold c_vsphere at h ⊢
    cases hc : env.connect with
    | error er => simp
    | ok u =>
      rw [hc] at h
      dsimp only at h ⊢
      rcases hh : vsphereHost clean now dt env.hostInfo [] with ⟨md1, e1⟩
      rw [hh] at h
      cases e1 with
      | some er => rfl
      | none =>
        dsimp only at h ⊢
        rcases hd : vsphereDatastore now dt env.dsInfo md1 with ⟨md2, e2⟩
        rw [hd] at h
        cases e2 with
        | some er => rfl
        | none => simp at h
  · intro now dt q r e hq hr
    unfold c_system_windows at hq
    cases q with
    | error er =>
      injection hq with hq
      rw [← hq]
    | ok rows =>
      dsimp only at hq
      split at hq
      · injection hq with hq
        rw [← hq] at hr
        simp at hr
      · simp at hq

/-- A host record that builds an `os.mem.total` point and then hits a
non-integer payload, leaving the loop's `Error` variable set. -/
def vrecBad : VRecord :=
  ⟨[⟨"name", "xsd:string", "esx1"⟩,
    ⟨"summary.hardware.memorySize", "xsd:long", "42"⟩,
    ⟨"summary.hardware.cpuMhz", "xsd:long", "oops"⟩]⟩

/-- Witness for C2: an ICMP run that received a reply (so a `ping.rtt`
point was built) and then failed, a vSphere host query that built a
memory point and then hit a bad integer, and a failed WMI query — each
returns a nil batch. -/
theorem collector_error_returns_nil_batch_witness :
    (c_icmp "target" 0 [] ⟨.ok (), [5000000], some "io timeout"⟩).1 = none
      ∧ (c_vsphere id 0 [] ⟨.ok (), .ok [vrecBad], .ok []⟩).1 = none
      ∧ (∃ r, c_system_windows 0 [] (.error "wmi failed") = some r
          ∧ r.1 = none) := by
  refine ⟨?_, ?_, ?_⟩
  · exact collector_error_returns_nil_batch.1 "target" 0 []
      ⟨.ok (), [5000000], some "io timeout"⟩ "io timeout" rfl
  · exact collector_error_returns_nil_batch.2.1 id 0 []
      ⟨.ok (), .ok [vrecBad], .ok []⟩ "vsphere bad integer" (by decide)
  · exact ⟨(none, some "wmi failed"), rfl,
      collector_error_returns_nil_batch.2.2 0 [] (.error "wmi failed")
        (none, some "wmi failed") "wmi failed" rfl rfl⟩
